import Mathlib

/-!
Shallow Lean embedding of the core aggregation, incident and SLA logic of
the uptime-guardian monitoring service.

Conventions of the embedding:
* Go `float64` values (weights, scores, percentages, SLO targets) are
  modelled as `ℚ`: the source only adds, multiplies and divides them.
* `time.Time` is modelled as whole seconds (`Int`); Go durations obtained by
  `t1.Sub(t0)` are the integer difference in seconds, and
  `int(d.Minutes())` (truncation toward zero) is modelled by `durMinutes`.
* Database rows and repository state touched by the verified operations are
  passed explicitly; fallible repository reads become `Option` parameters.
* Side-effecting service functions return explicit action values describing
  the writes they perform, mirroring the source control flow.
-/

namespace UptimeGuardian

/-- `CheckStatus` from internal/db/models.go: up, down, degraded. -/
inductive CheckStatus where
  | up
  | down
  | degraded
deriving DecidableEq, Repr

/-- Go `int(duration.Minutes())` for a duration of `d` whole seconds:
float division by 60 followed by truncation toward zero. -/
def durMinutes (d : Int) : Int :=
  if 0 ≤ d then ((d.toNat / 60 : Nat) : Int) else -(((-d).toNat / 60 : Nat) : Int)

/-- The fields of `db.CheckResult` used by the verified code paths. -/
structure CheckResult where
  status : CheckStatus
  responseTimeMs : Nat
  errorMsg : String
  checkedAt : Int
deriving DecidableEq, Repr

/-- The fields of `db.MonitorGroupMember` used by group aggregation. -/
structure MonitorGroupMember where
  monitorID : String
  weight : ℚ
  isCritical : Bool
deriving DecidableEq, Repr

/-- `MonitorGroup.CalculateHealthScore` (internal/db/models_groups.go).
`memberStatuses` models the Go map: `none` is a key not present in the map. -/
def CalculateHealthScore (members : List MonitorGroupMember)
    (memberStatuses : String → Option CheckStatus) : ℚ :=
  if members.isEmpty then 0
  else
    let totalWeight : ℚ := members.foldl (fun acc m => acc + m.weight) 0
    let weightedScore : ℚ := members.foldl (fun acc m =>
      match memberStatuses m.monitorID with
      | some CheckStatus.up => acc + m.weight * 100
      | some CheckStatus.degraded => acc + m.weight * 50
      | some CheckStatus.down => acc
      | none => acc) 0
    if totalWeight = 0 then 0 else weightedScore / totalWeight

/-- `MonitorGroup.DetermineOverallStatus` (internal/db/models_groups.go). -/
def DetermineOverallStatus (members : List MonitorGroupMember)
    (memberStatuses : String → Option CheckStatus) : CheckStatus :=
  let hasCriticalDown := members.any fun m =>
    match memberStatuses m.monitorID with
    | some CheckStatus.down => m.isCritical
    | _ => false
  let hasAnyDown := members.any fun m =>
    decide (memberStatuses m.monitorID = some CheckStatus.down)
  let hasDegraded := members.any fun m =>
    decide (memberStatuses m.monitorID = some CheckStatus.degraded)
  if hasCriticalDown then CheckStatus.down
  else if hasAnyDown || hasDegraded then CheckStatus.degraded
  else CheckStatus.up

/-- The snapshot fields of `db.MonitorGroupStatus` computed by
`Service.calculateGroupStatus` (the human-readable `Message` field is not
modelled; no verified property mentions it outside the empty-group branch,
which builds its own literal row). -/
structure GroupSnapshot where
  overallStatus : CheckStatus
  healthScore : ℚ
  monitorsUp : Nat
  monitorsDown : Nat
  monitorsDegraded : Nat
  criticalMonitorsDown : Nat
deriving DecidableEq, Repr

/-- The `memberStatuses` map built by `Service.calculateGroupStatus`:
every member key is inserted, with degraded standing in for a failed
`GetMonitorStatus` fetch. -/
def memberStatusMap (fetch : String → Option CheckStatus) : String → Option CheckStatus :=
  fun id =>
    match fetch id with
    | some s => some s
    | none => some CheckStatus.degraded

/-- `Service.calculateGroupStatus` (internal/groups service).
`fetch` models `repo.GetMonitorStatus`: `none` is a fetch error, in which
case the member is recorded as degraded before aggregation. -/
def calculateGroupStatus (members : List MonitorGroupMember)
    (fetch : String → Option CheckStatus) : GroupSnapshot :=
  let memberStatuses := memberStatusMap fetch
  { overallStatus := DetermineOverallStatus members memberStatuses
    healthScore := CalculateHealthScore members memberStatuses
    monitorsUp := (members.filter fun m => decide (fetch m.monitorID = some CheckStatus.up)).length
    monitorsDown := (members.filter fun m => decide (fetch m.monitorID = some CheckStatus.down)).length
    monitorsDegraded := (members.filter fun m =>
      decide (fetch m.monitorID = some CheckStatus.degraded ∨ fetch m.monitorID = none)).length
    criticalMonitorsDown := (members.filter fun m =>
      decide (fetch m.monitorID = some CheckStatus.down ∧ m.isCritical = true)).length }

/-- The fields of `db.MonitorGroupAlertRule` used by rule evaluation. -/
structure MonitorGroupAlertRule where
  triggerCondition : String
  thresholdValue : Option ℚ
deriving DecidableEq, Repr

/-- `Service.evaluateAlertRule` (internal/groups service). -/
def evaluateAlertRule (rule : MonitorGroupAlertRule) (status : GroupSnapshot) : Bool :=
  if rule.triggerCondition = "health_score_below" then
    match rule.thresholdValue with
    | some t => decide (status.healthScore < t)
    | none => false
  else if rule.triggerCondition = "any_critical_down" then
    decide (status.criticalMonitorsDown > 0)
  else if rule.triggerCondition = "percentage_down" then
    match rule.thresholdValue with
    | some t =>
      let totalMonitors := status.monitorsUp + status.monitorsDown + status.monitorsDegraded
      if totalMonitors > 0 then
        decide ((status.monitorsDown : ℚ) / (totalMonitors : ℚ) * 100 ≥ t)
      else false
    | none => false
  else if rule.triggerCondition = "all_down" then
    decide (status.monitorsUp = 0 ∧ status.monitorsDown > 0)
  else false

/-- The rule-scanning loop of `Service.checkGroupIncidents`: rules are tried
in order and the loop breaks on the first rule that evaluates to true. -/
def firstTriggeredRule (rules : List MonitorGroupAlertRule)
    (status : GroupSnapshot) : Option MonitorGroupAlertRule :=
  rules.find? fun rule => evaluateAlertRule rule status

/-- `Service.determineSeverity` for groups (internal/groups service). -/
def determineGroupSeverity (status : GroupSnapshot) : String :=
  if status.criticalMonitorsDown > 0 ∨ status.healthScore < 50 then "critical"
  else if status.monitorsDown > 0 ∨ status.healthScore < 80 then "warning"
  else "info"

/-- The group-incident write performed by `Service.checkGroupIncidents`. -/
inductive GroupIncidentAction where
  | createIncident (severity : String) (healthScoreAtStart : ℚ)
  | resolveIncident
  | noAction
deriving DecidableEq, Repr

/-- `Service.checkGroupIncidents` (internal/groups service).
`activeIncidentOpen` models whether `GetActiveGroupIncident` found a row. -/
def checkGroupIncidents (rules : List MonitorGroupAlertRule)
    (activeIncidentOpen : Bool) (status : GroupSnapshot) : GroupIncidentAction :=
  let shouldAlert := (firstTriggeredRule rules status).isSome
  if shouldAlert ∧ activeIncidentOpen = false then
    GroupIncidentAction.createIncident (determineGroupSeverity status) status.healthScore
  else if shouldAlert = false ∧ activeIncidentOpen then
    GroupIncidentAction.resolveIncident
  else GroupIncidentAction.noAction

/-- The observable outcome of `Service.UpdateGroupStatus`: the empty-member
branch saves a literal row and returns at once (no metrics, no alert-rule
evaluation, no incident transition); the other branch saves the computed
snapshot and then runs `checkGroupIncidents`. -/
inductive GroupUpdateOutcome where
  | savedEmptyGroupRow (overallStatus : CheckStatus) (healthScore : ℚ) (message : String)
  | savedSnapshot (snapshot : GroupSnapshot) (incidents : GroupIncidentAction)
deriving DecidableEq, Repr

/-- `Service.UpdateGroupStatus` (internal/groups service). -/
def UpdateGroupStatus (members : List MonitorGroupMember)
    (fetch : String → Option CheckStatus) (rules : List MonitorGroupAlertRule)
    (activeIncidentOpen : Bool) : GroupUpdateOutcome :=
  if members.isEmpty then
    GroupUpdateOutcome.savedEmptyGroupRow CheckStatus.degraded 0 "No monitors in group"
  else
    let status := calculateGroupStatus members fetch
    GroupUpdateOutcome.savedSnapshot status (checkGroupIncidents rules activeIncidentOpen status)

/-- The fields of `db.Incident` used by the incident service. -/
structure Incident where
  startedAt : Int
  resolvedAt : Option Int
  severity : String
  downtimeMinutes : Int
  affectedChecks : Nat
  notificationsSent : Nat
  acknowledgedAt : Option Int
  acknowledgedBy : Option String
deriving DecidableEq, Repr

/-- `Service.determineSeverity` (internal/incidents/service.go). -/
def determineSeverity (status : CheckStatus) : String :=
  match status with
  | CheckStatus.down => "critical"
  | CheckStatus.degraded => "warning"
  | _ => "info"

/-- The incident write performed by `Service.CreateOrUpdateIncident`. -/
inductive IncidentAction where
  | createIncident (i : Incident)
  | updateIncident (i : Incident)
  | resolveIncident (i : Incident)
  | noAction
deriving DecidableEq, Repr

/-- `Service.CreateOrUpdateIncident` (internal/incidents/service.go).
`activeIncident` models `repo.GetActiveIncident` (`none` = "no active
incident"); `now` is the wall clock read by `time.Now()`/`time.Since`. -/
def CreateOrUpdateIncident (activeIncident : Option Incident)
    (result : CheckResult) (now : Int) : IncidentAction :=
  if result.status = CheckStatus.down ∨ result.status = CheckStatus.degraded then
    match activeIncident with
    | none =>
      IncidentAction.createIncident
        { startedAt := result.checkedAt
          resolvedAt := none
          severity := determineSeverity result.status
          downtimeMinutes := 0
          affectedChecks := 1
          notificationsSent := 0
          acknowledgedAt := none
          acknowledgedBy := none }
    | some i =>
      IncidentAction.updateIncident
        { i with affectedChecks := i.affectedChecks + 1
                 downtimeMinutes := durMinutes (now - i.startedAt) }
  else if result.status = CheckStatus.up then
    match activeIncident with
    | some i =>
      IncidentAction.resolveIncident
        { i with resolvedAt := some now
                 downtimeMinutes := durMinutes (now - i.startedAt) }
    | none => IncidentAction.noAction
  else IncidentAction.noAction

/-- `Service.AcknowledgeIncident` (internal/incidents/service.go): the
incident row is fetched, the call fails before any write when it is already
acknowledged, otherwise the acknowledgement fields are set and written. -/
def AcknowledgeIncident (incident : Incident) (now : Int)
    (userEmail : String) : Except String Incident :=
  if incident.acknowledgedAt ≠ none then
    Except.error "incident already acknowledged"
  else
    Except.ok { incident with acknowledgedAt := some now
                              acknowledgedBy := some userEmail }

/-- The fields of the `monitor_last_status` cache row (`db.MonitorStatus`)
written by `Repository.SaveCheckResult`. -/
structure MonitorStatusRow where
  status : CheckStatus
  message : String
  lastCheck : Int
  responseTimeMs : Nat
deriving DecidableEq, Repr

/-- The `monitor_last_status` upsert inside `Repository.SaveCheckResult`
(internal/db/repository.go): the row is overwritten unconditionally with the
incoming result's fields, whatever the cached row held before. -/
def SaveCheckResult (cached : Option MonitorStatusRow)
    (result : CheckResult) : MonitorStatusRow :=
  { status := result.status
    message := if result.errorMsg ≠ "" then result.errorMsg else ""
    lastCheck := result.checkedAt
    responseTimeMs := result.responseTimeMs }

/-- The cache row after a sequence of `SaveCheckResult` calls for one
monitor, in save order, starting from an absent row. -/
def runSaves (results : List CheckResult) : Option MonitorStatusRow :=
  results.foldl (fun cached r => some (SaveCheckResult cached r)) none

/-- The loop of `Calculator.calculateDowntimeMinutes`
(internal/sla/calculator.go): walks the checks carrying
(`downtimeStart` when `inDowntime`, accumulated minutes). -/
def downtimeLoop (checks : List CheckResult) (openStart : Option Int)
    (acc : Int) : Int × Option Int :=
  match checks with
  | [] => (acc, openStart)
  | c :: cs =>
    match openStart with
    | none =>
      if c.status ≠ CheckStatus.up then downtimeLoop cs (some c.checkedAt) acc
      else downtimeLoop cs none acc
    | some t0 =>
      if c.status = CheckStatus.up then
        downtimeLoop cs none (acc + durMinutes (c.checkedAt - t0))
      else downtimeLoop cs (some t0) acc

/-- `Calculator.calculateDowntimeMinutes` (internal/sla/calculator.go).
The unused `intervalSeconds` parameter of the source is kept; a streak still
open after the loop adds `int(time.Since(lastCheck.CheckedAt).Minutes())`,
measured from the last check of the window. -/
def calculateDowntimeMinutes (checks : List CheckResult)
    (intervalSeconds : Int) (now : Int) : Int :=
  if checks.isEmpty then 0
  else
    let r := downtimeLoop checks none 0
    match r.2, checks.getLast? with
    | some _, some lastCheck => r.1 + durMinutes (now - lastCheck.checkedAt)
    | _, _ => r.1

/-- The fields of `db.SLAReport` computed by `Calculator.CalculateSLA`. -/
structure SLAReportRow where
  totalChecks : Nat
  successfulChecks : Nat
  failedChecks : Nat
  uptimePercentage : ℚ
  downtimeMinutes : Int
  averageResponseTimeMs : Nat
  sloMet : Bool
deriving DecidableEq, Repr

/-- `Calculator.CalculateSLA` (internal/sla/calculator.go). `sloTarget`
models `repo.GetMonitorSLO` (`none` = no SLO row, or a lookup error which
the source ignores); `none` is returned for the "no checks found in period"
error. -/
def CalculateSLA (checks : List CheckResult) (sloTarget : Option ℚ)
    (intervalSeconds : Int) (now : Int) : Option SLAReportRow :=
  if checks.isEmpty then none
  else
    let totalChecks := checks.length
    let successfulChecks := checks.countP fun c => decide (c.status = CheckStatus.up)
    let failedChecks := checks.countP fun c => decide (c.status ≠ CheckStatus.up)
    let totalResponseTime := (checks.map fun c => c.responseTimeMs).sum
    let uptimePercentage : ℚ := ((successfulChecks : ℚ) / (totalChecks : ℚ)) * 100
    let downtime := calculateDowntimeMinutes checks intervalSeconds now
    let avgResponseTime := totalResponseTime / totalChecks
    let sloMet :=
      match sloTarget with
      | none => true
      | some target => decide (uptimePercentage ≥ target)
    some { totalChecks := totalChecks
           successfulChecks := successfulChecks
           failedChecks := failedChecks
           uptimePercentage := uptimePercentage
           downtimeMinutes := downtime
           averageResponseTimeMs := avgResponseTime
           sloMet := sloMet }

/-! Spec-side definitions, written from the specification's wording, used to
state the claims against the embedded code. -/

/-- Spec wording: member score is 100 if up, 50 if degraded, 0 if down. -/
def specStatusScore : CheckStatus → ℚ
  | CheckStatus.up => 100
  | CheckStatus.degraded => 50
  | CheckStatus.down => 0

/-- Spec wording: a member whose status cannot be fetched counts as degraded. -/
def effectiveStatus (fetch : String → Option CheckStatus)
    (m : MonitorGroupMember) : CheckStatus :=
  (fetch m.monitorID).getD CheckStatus.degraded

/-- Score of an entry of the Go member-status map: an absent key earns no
points, a present key earns the spec score of its status. -/
def optScore : Option CheckStatus → ℚ
  | some s => specStatusScore s
  | none => 0

theorem foldl_add_weight (members : List MonitorGroupMember) (a : ℚ) :
    members.foldl (fun acc m => acc + m.weight) a
      = a + (members.map fun m => m.weight).sum := by
  induction members generalizing a with
  | nil => simp
  | cons m ms ih => simp only [List.foldl_cons, List.map_cons, List.sum_cons, ih]; ring

theorem foldl_weighted_score (members : List MonitorGroupMember)
    (ms : String → Option CheckStatus) (a : ℚ) :
    members.foldl (fun acc m =>
      match ms m.monitorID with
      | some CheckStatus.up => acc + m.weight * 100
      | some CheckStatus.degraded => acc + m.weight * 50
      | some CheckStatus.down => acc
      | none => acc) a
      = a + (members.map fun m => m.weight * optScore (ms m.monitorID)).sum := by
  induction members generalizing a with
  | nil => simp
  | cons m mtail ih =>
    rcases h : ms m.monitorID with _ | s
    · simp only [List.foldl_cons, List.map_cons, List.sum_cons, h, ih, optScore]
      ring
    · cases s <;>
        simp only [List.foldl_cons, List.map_cons, List.sum_cons, h, ih,
          optScore, specStatusScore] <;>
        ring

/-- `CalculateHealthScore` as the closed-form weighted average, whenever the
total weight is nonzero. -/
theorem CalculateHealthScore_eq (members : List MonitorGroupMember)
    (ms : String → Option CheckStatus)
    (hW : (members.map fun m => m.weight).sum ≠ 0) :
    CalculateHealthScore members ms
      = (members.map fun m => m.weight * optScore (ms m.monitorID)).sum
        / (members.map fun m => m.weight).sum := by
  have hne : members.isEmpty = false := by
    cases members with
    | nil => simp at hW
    | cons _ _ => rfl
  unfold CalculateHealthScore
  rw [hne]
  simp only [Bool.false_eq_true, if_false, foldl_add_weight, foldl_weighted_score, zero_add]
  rw [if_neg hW]

theorem calculateGroupStatus_healthScore (members : List MonitorGroupMember)
    (fetch : String → Option CheckStatus)
    (hW : (members.map fun m => m.weight).sum ≠ 0) :
    (calculateGroupStatus members fetch).healthScore
      = (members.map fun m => m.weight * specStatusScore (effectiveStatus fetch m)).sum
        / (members.map fun m => m.weight).sum := by
  have hrw : (calculateGroupStatus members fetch).healthScore
      = CalculateHealthScore members (memberStatusMap fetch) := rfl
  rw [hrw, CalculateHealthScore_eq _ _ hW]
  have hmap : (members.map fun m => m.weight * optScore (memberStatusMap fetch m.monitorID))
      = members.map fun m => m.weight * specStatusScore (effectiveStatus fetch m) := by
    refine List.map_congr_left fun m _ => ?_
    rcases h : fetch m.monitorID with _ | s
    · simp [memberStatusMap, h, optScore, effectiveStatus]
    · cases s <;> simp [memberStatusMap, h, optScore, effectiveStatus]
  rw [hmap]

theorem calculateGroupStatus_overall (members : List MonitorGroupMember)
    (fetch : String → Option CheckStatus) :
    (calculateGroupStatus members fetch).overallStatus
      = (if ∃ m ∈ members, m.isCritical = true ∧ effectiveStatus fetch m = CheckStatus.down
         then CheckStatus.down
         else if ∃ m ∈ members, effectiveStatus fetch m = CheckStatus.down
                ∨ effectiveStatus fetch m = CheckStatus.degraded
         then CheckStatus.degraded
         else CheckStatus.up) := by
  have hrw : (calculateGroupStatus members fetch).overallStatus
      = DetermineOverallStatus members (memberStatusMap fetch) := rfl
  rw [hrw]
  unfold DetermineOverallStatus
  have hcrit : ∀ m : MonitorGroupMember,
      (match memberStatusMap fetch m.monitorID with
       | some CheckStatus.down => m.isCritical
       | _ => false)
      = decide (m.isCritical = true ∧ effectiveStatus fetch m = CheckStatus.down) := by
    intro m
    rcases h : fetch m.monitorID with _ | s
    · simp [memberStatusMap, h, effectiveStatus]
    · cases s <;> simp [memberStatusMap, h, effectiveStatus]
  have hdown : ∀ m : MonitorGroupMember,
      (decide (memberStatusMap fetch m.monitorID = some CheckStatus.down))
      = decide (effectiveStatus fetch m = CheckStatus.down) := by
    intro m
    rcases h : fetch m.monitorID with _ | s
    · simp [memberStatusMap, h, effectiveStatus]
    · cases s <;> simp [memberStatusMap, h, effectiveStatus]
  have hdeg : ∀ m : MonitorGroupMember,
      (decide (memberStatusMap fetch m.monitorID = some CheckStatus.degraded))
      = decide (effectiveStatus fetch m = CheckStatus.degraded) := by
    intro m
    rcases h : fetch m.monitorID with _ | s
    · simp [memberStatusMap, h, effectiveStatus]
    · cases s <;> simp [memberStatusMap, h, effectiveStatus]
  simp only [hcrit, hdown, hdeg]
  by_cases h1 : ∃ m ∈ members, m.isCritical = true ∧ effectiveStatus fetch m = CheckStatus.down
  · have : (members.any fun m =>
        decide (m.isCritical = true ∧ effectiveStatus fetch m = CheckStatus.down)) = true := by
      simp only [List.any_eq_true, decide_eq_true_eq]
      exact h1
    simp [this, h1]
  · have hb1 : (members.any fun m =>
        decide (m.isCritical = true ∧ effectiveStatus fetch m = CheckStatus.down)) = false := by
      simp only [List.any_eq_false, decide_eq_true_eq]
      intro m hm
      exact fun hc => h1 ⟨m, hm, hc⟩
    by_cases h2 : ∃ m ∈ members, effectiveStatus fetch m = CheckStatus.down
      ∨ effectiveStatus fetch m = CheckStatus.degraded
    · have : ((members.any fun m => decide (effectiveStatus fetch m = CheckStatus.down))
          || (members.any fun m => decide (effectiveStatus fetch m = CheckStatus.degraded))) = true := by
        rw [Bool.or_eq_true]
        rcases h2 with ⟨m, hm, hcase | hcase⟩
        · exact Or.inl (by simp only [List.any_eq_true, decide_eq_true_eq]; exact ⟨m, hm, hcase⟩)
        · exact Or.inr (by simp only [List.any_eq_true, decide_eq_true_eq]; exact ⟨m, hm, hcase⟩)
      simp [hb1, this, h1, h2]
    · have : ((members.any fun m => decide (effectiveStatus fetch m = CheckStatus.down))
          || (members.any fun m => decide (effectiveStatus fetch m = CheckStatus.degraded))) = false := by
        rw [Bool.or_eq_false_iff]
        constructor <;>
          · simp only [List.any_eq_false, decide_eq_true_eq]
            intro m hm hc
            exact h2 ⟨m, hm, by simp [hc]⟩
      simp [hb1, this, h1, h2]

/-- Claim C1: on a member result, group aggregation is a pure function of
members, weights and critical flags: the health score is the weighted
average `Σ(wᵢ·sᵢ)/Σwᵢ` with `sᵢ` 100/50/0 for up/degraded/down, an
unfetchable member status counting as degraded, and the overall status is
down when a critical member is down, else degraded when any member is down
or degraded, else up. -/
theorem group_aggregation_pure (members : List MonitorGroupMember)
    (fetch : String → Option CheckStatus)
    (hW : (members.map fun m => m.weight).sum ≠ 0) :
    (calculateGroupStatus members fetch).healthScore
      = (members.map fun m => m.weight * specStatusScore (effectiveStatus fetch m)).sum
        / (members.map fun m => m.weight).sum
    ∧ (calculateGroupStatus members fetch).overallStatus
      = (if ∃ m ∈ members, m.isCritical = true ∧ effectiveStatus fetch m = CheckStatus.down
         then CheckStatus.down
         else if ∃ m ∈ members, effectiveStatus fetch m = CheckStatus.down
                ∨ effectiveStatus fetch m = CheckStatus.degraded
         then CheckStatus.degraded
         else CheckStatus.up) :=
  ⟨calculateGroupStatus_healthScore members fetch hW,
   calculateGroupStatus_overall members fetch⟩

/-- Witness for `group_aggregation_pure`: a single critical member of
weight 1 whose monitor is down gives score 0 and overall status down. -/
theorem group_aggregation_pure_witness :
    (([⟨"a", 1, true⟩] : List MonitorGroupMember).map fun m => m.weight).sum ≠ 0
    ∧ ((calculateGroupStatus [⟨"a", 1, true⟩] fun _ => some CheckStatus.down).healthScore
        = (([⟨"a", 1, true⟩] : List MonitorGroupMember).map fun m =>
            m.weight * specStatusScore (effectiveStatus (fun _ => some CheckStatus.down) m)).sum
          / (([⟨"a", 1, true⟩] : List MonitorGroupMember).map fun m => m.weight).sum
      ∧ (calculateGroupStatus [⟨"a", 1, true⟩] fun _ => some CheckStatus.down).overallStatus
        = (if ∃ m ∈ ([⟨"a", 1, true⟩] : List MonitorGroupMember),
              m.isCritical = true
                ∧ effectiveStatus (fun _ => some CheckStatus.down) m = CheckStatus.down
           then CheckStatus.down
           else if ∃ m ∈ ([⟨"a", 1, true⟩] : List MonitorGroupMember),
              effectiveStatus (fun _ => some CheckStatus.down) m = CheckStatus.down
                ∨ effectiveStatus (fun _ => some CheckStatus.down) m = CheckStatus.degraded
           then CheckStatus.degraded
           else CheckStatus.up)) :=
  ⟨by norm_num,
   group_aggregation_pure [⟨"a", 1, true⟩] (fun _ => some CheckStatus.down) (by norm_num)⟩

/-- Claim C10: updating a group with zero members writes a status row with
overall status degraded, health score 0 and message "No monitors in group",
and returns at once: no alert rule is evaluated and no group incident is
opened or resolved (the `savedEmptyGroupRow` outcome carries no incident
action, whatever rules or open incident exist). -/
theorem empty_group_update (fetch : String → Option CheckStatus)
    (rules : List MonitorGroupAlertRule) (activeIncidentOpen : Bool) :
    UpdateGroupStatus [] fetch rules activeIncidentOpen
      = GroupUpdateOutcome.savedEmptyGroupRow CheckStatus.degraded 0 "No monitors in group" := rfl

/-- Claim C7: group alert rules are scanned in declared order with the
first matching rule winning (the nil and cons equations of the rule scan),
and a rule matches exactly when its condition holds on the snapshot:
health_score_below fires iff `health_score < threshold`, any_critical_down
iff `critical_monitors_down > 0`, percentage_down (on a non-empty group)
iff `down / total * 100 ≥ threshold`, and all_down iff
`up = 0 ∧ down > 0`. -/
theorem alert_rules_first_match (snap : GroupSnapshot)
    (r : MonitorGroupAlertRule) (rs : List MonitorGroupAlertRule)
    (t : ℚ) (th : Option ℚ)
    (htotal : 0 < snap.monitorsUp + snap.monitorsDown + snap.monitorsDegraded) :
    firstTriggeredRule [] snap = none
    ∧ firstTriggeredRule (r :: rs) snap
        = (if evaluateAlertRule r snap = true then some r else firstTriggeredRule rs snap)
    ∧ (evaluateAlertRule ⟨"health_score_below", some t⟩ snap = true
        ↔ snap.healthScore < t)
    ∧ (evaluateAlertRule ⟨"any_critical_down", th⟩ snap = true
        ↔ 0 < snap.criticalMonitorsDown)
    ∧ (evaluateAlertRule ⟨"percentage_down", some t⟩ snap = true
        ↔ (snap.monitorsDown : ℚ)
            / ((snap.monitorsUp + snap.monitorsDown + snap.monitorsDegraded : Nat) : ℚ) * 100
            ≥ t)
    ∧ (evaluateAlertRule ⟨"all_down", th⟩ snap = true
        ↔ snap.monitorsUp = 0 ∧ 0 < snap.monitorsDown) := by
  refine ⟨rfl, ?_, ?_, ?_, ?_, ?_⟩
  · by_cases h : evaluateAlertRule r snap = true
    · simp [firstTriggeredRule, List.find?_cons_of_pos, h]
    · simp only [Bool.not_eq_true] at h
      simp [firstTriggeredRule, List.find?_cons_of_neg, h]
  · simp [evaluateAlertRule]
  · simp [evaluateAlertRule]
  · simp only [evaluateAlertRule, if_true, if_false]
    rw [if_pos htotal]
    simp [ge_iff_le]
  · simp [evaluateAlertRule, pos_iff_ne_zero]

/-- Witness for `alert_rules_first_match` at a concrete snapshot (one up,
one down, one critical down, score 30) and an all_down head rule. -/
theorem alert_rules_first_match_witness :
    (0 < (⟨CheckStatus.down, 30, 1, 1, 0, 1⟩ : GroupSnapshot).monitorsUp
        + (⟨CheckStatus.down, 30, 1, 1, 0, 1⟩ : GroupSnapshot).monitorsDown
        + (⟨CheckStatus.down, 30, 1, 1, 0, 1⟩ : GroupSnapshot).monitorsDegraded)
    ∧ (firstTriggeredRule [] (⟨CheckStatus.down, 30, 1, 1, 0, 1⟩ : GroupSnapshot) = none
      ∧ firstTriggeredRule [⟨"all_down", none⟩] (⟨CheckStatus.down, 30, 1, 1, 0, 1⟩ : GroupSnapshot)
          = (if evaluateAlertRule ⟨"all_down", none⟩ (⟨CheckStatus.down, 30, 1, 1, 0, 1⟩ : GroupSnapshot) = true
             then some ⟨"all_down", none⟩
             else firstTriggeredRule [] (⟨CheckStatus.down, 30, 1, 1, 0, 1⟩ : GroupSnapshot))
      ∧ (evaluateAlertRule ⟨"health_score_below", some 50⟩ (⟨CheckStatus.down, 30, 1, 1, 0, 1⟩ : GroupSnapshot) = true
          ↔ (⟨CheckStatus.down, 30, 1, 1, 0, 1⟩ : GroupSnapshot).healthScore < 50)
      ∧ (evaluateAlertRule ⟨"any_critical_down", none⟩ (⟨CheckStatus.down, 30, 1, 1, 0, 1⟩ : GroupSnapshot) = true
          ↔ 0 < (⟨CheckStatus.down, 30, 1, 1, 0, 1⟩ : GroupSnapshot).criticalMonitorsDown)
      ∧ (evaluateAlertRule ⟨"percentage_down", some 50⟩ (⟨CheckStatus.down, 30, 1, 1, 0, 1⟩ : GroupSnapshot) = true
          ↔ ((⟨CheckStatus.down, 30, 1, 1, 0, 1⟩ : GroupSnapshot).monitorsDown : ℚ)
              / (((⟨CheckStatus.down, 30, 1, 1, 0, 1⟩ : GroupSnapshot).monitorsUp
                  + (⟨CheckStatus.down, 30, 1, 1, 0, 1⟩ : GroupSnapshot).monitorsDown
                  + (⟨CheckStatus.down, 30, 1, 1, 0, 1⟩ : GroupSnapshot).monitorsDegraded : Nat) : ℚ) * 100
              ≥ 50)
      ∧ (evaluateAlertRule ⟨"all_down", none⟩ (⟨CheckStatus.down, 30, 1, 1, 0, 1⟩ : GroupSnapshot) = true
          ↔ (⟨CheckStatus.down, 30, 1, 1, 0, 1⟩ : GroupSnapshot).monitorsUp = 0
            ∧ 0 < (⟨CheckStatus.down, 30, 1, 1, 0, 1⟩ : GroupSnapshot).monitorsDown)) :=
  ⟨by decide,
   alert_rules_first_match ⟨CheckStatus.down, 30, 1, 1, 0, 1⟩ ⟨"all_down", none⟩ [] 50 none (by decide)⟩

/-- Group used to refute the claimed biconditional of C9: one up member of
weight 1 plus one down member of weight 0 (weights sum to 1). -/
def c9Members : List MonitorGroupMember :=
  [⟨"a", 1, false⟩, ⟨"b", 0, false⟩]

/-- Status assignment for `c9Members`: monitor "a" up, everything else down. -/
def c9Statuses (id : String) : CheckStatus :=
  if id = "a" then CheckStatus.up else CheckStatus.down

/-- Counterexample to claim C9 as stated: the health score of `c9Members`
under `c9Statuses` is 100, yet not every member is up (member "b" is down),
so `score == 100 ⇔ every member up` fails on the code. -/
theorem health_extremes_counterexample :
    CalculateHealthScore c9Members (fun id => some (c9Statuses id)) = 100
    ∧ ¬ (∀ m ∈ c9Members, c9Statuses m.monitorID = CheckStatus.up) := by
  have ha : c9Statuses "a" = CheckStatus.up := by
    unfold c9Statuses
    rw [if_pos rfl]
  have hb : c9Statuses "b" = CheckStatus.down := by
    unfold c9Statuses
    rw [if_neg (by decide)]
  constructor
  · norm_num [CalculateHealthScore, c9Members, ha, hb]
  · intro h
    have hcontra := h ⟨"b", 0, false⟩ (by simp [c9Members])
    rw [show (⟨"b", 0, false⟩ : MonitorGroupMember).monitorID = "b" from rfl, hb] at hcontra
    exact CheckStatus.noConfusion hcontra

theorem sum_map_sub_split {α : Type} (l : List α) (f g : α → ℚ) :
    (l.map fun x => f x - g x).sum = (l.map f).sum - (l.map g).sum := by
  induction l with
  | nil => simp
  | cons x xs ih => simp only [List.map_cons, List.sum_cons, ih]; ring

theorem all_zero_of_sum_zero {l : List ℚ} (hpos : ∀ x ∈ l, 0 ≤ x)
    (hsum : l.sum = 0) : ∀ x ∈ l, x = 0 := by
  induction l with
  | nil => simp
  | cons y ys ih =>
    have hy : 0 ≤ y := hpos y (List.mem_cons_self _ _)
    have hys : 0 ≤ ys.sum :=
      List.sum_nonneg fun x hx => hpos x (List.mem_cons_of_mem _ hx)
    have hsum' : y + ys.sum = 0 := by simpa using hsum
    have hy0 : y = 0 := by linarith
    have hys0 : ys.sum = 0 := by linarith
    intro x hx
    rcases List.mem_cons.mp hx with hx | hx
    · simpa [hx] using hy0
    · exact ih (fun z hz => hpos z (List.mem_cons_of_mem _ hz)) hys0 x hx

theorem specStatusScore_nonneg (s : CheckStatus) : 0 ≤ specStatusScore s := by
  cases s <;> norm_num [specStatusScore]

theorem specStatusScore_le_hundred (s : CheckStatus) : specStatusScore s ≤ 100 := by
  cases s <;> norm_num [specStatusScore]

theorem optScore_some (s : CheckStatus) : optScore (some s) = specStatusScore s := rfl

theorem sum_map_mul_hundred (l : List MonitorGroupMember) :
    (l.map fun m => m.weight * 100).sum = 100 * (l.map fun m => m.weight).sum := by
  induction l with
  | nil => simp
  | cons m ms ih => simp only [List.map_cons, List.sum_cons, ih]; ring

/-- Claim C9 (amended): with the nonnegative member weights of the data
model and a positive total weight, the health score lies in [0, 100] and is
0 when every member is down; but the equality `score = 100` holds iff every
member carrying positive weight is up — a down member of weight 0 does not
lower the score (see `health_extremes_counterexample`). -/
theorem health_score_extremes (members : List MonitorGroupMember)
    (st : String → CheckStatus)
    (hw : ∀ m ∈ members, 0 ≤ m.weight)
    (hW : 0 < (members.map fun m => m.weight).sum) :
    (0 ≤ CalculateHealthScore members (fun id => some (st id))
      ∧ CalculateHealthScore members (fun id => some (st id)) ≤ 100)
    ∧ (CalculateHealthScore members (fun id => some (st id)) = 100
        ↔ ∀ m ∈ members, 0 < m.weight → st m.monitorID = CheckStatus.up)
    ∧ ((∀ m ∈ members, st m.monitorID = CheckStatus.down)
        → CalculateHealthScore members (fun id => some (st id)) = 0) := by
  have hWne : (members.map fun m => m.weight).sum ≠ 0 := ne_of_gt hW
  have hscore := CalculateHealthScore_eq members (fun id => some (st id)) hWne
  set W := (members.map fun m => m.weight).sum with hWdef
  set S := (members.map fun m =>
    m.weight * optScore (some (st m.monitorID))).sum with hSdef
  have hterm_nonneg : ∀ x ∈ members.map fun m =>
      m.weight * optScore (some (st m.monitorID)), 0 ≤ x := by
    intro x hx
    rcases List.mem_map.mp hx with ⟨m, hm, rfl⟩
    rw [optScore_some]
    exact mul_nonneg (hw m hm) (specStatusScore_nonneg _)
  have hS_nonneg : 0 ≤ S := List.sum_nonneg hterm_nonneg
  have hS_le : S ≤ 100 * W := by
    have h1 : S ≤ (members.map fun m => m.weight * 100).sum := by
      rw [hSdef]
      refine List.sum_le_sum fun m hm => ?_
      rw [optScore_some]
      exact mul_le_mul_of_nonneg_left (specStatusScore_le_hundred _) (hw m hm)
    have h2 := sum_map_mul_hundred members
    rw [← hWdef] at h2
    linarith
  refine ⟨⟨?_, ?_⟩, ?_, ?_⟩
  · rw [hscore]
    exact div_nonneg hS_nonneg (le_of_lt hW)
  · rw [hscore, div_le_iff₀ hW]
    linarith
  · rw [hscore, div_eq_iff hWne]
    constructor
    · intro hSW m hm hmw
      have hzero : ∀ x ∈ members.map fun m =>
          m.weight * 100 - m.weight * optScore (some (st m.monitorID)), x = 0 := by
        apply all_zero_of_sum_zero
        · intro x hx
          rcases List.mem_map.mp hx with ⟨m₂, hm₂, rfl⟩
          have hle : m₂.weight * optScore (some (st m₂.monitorID)) ≤ m₂.weight * 100 := by
            rw [optScore_some]
            exact mul_le_mul_of_nonneg_left (specStatusScore_le_hundred _) (hw m₂ hm₂)
          linarith
        · rw [sum_map_sub_split, sum_map_mul_hundred, ← hWdef, ← hSdef, hSW]
          ring
      have hm0 := hzero (m.weight * 100 - m.weight * optScore (some (st m.monitorID)))
        (List.mem_map.mpr ⟨m, hm, rfl⟩)
      have hsc : optScore (some (st m.monitorID)) = 100 := by
        have hne : m.weight ≠ 0 := ne_of_gt hmw
        have hprod : m.weight * (100 - optScore (some (st m.monitorID))) = 0 := by linarith
        rcases mul_eq_zero.mp hprod with h | h
        · exact absurd h hne
        · linarith
      cases hcase : st m.monitorID <;>
        simp only [hcase, optScore, specStatusScore] at hsc <;> first | rfl | norm_num at hsc
    · intro hup
      have hmap : (members.map fun m => m.weight * optScore (some (st m.monitorID)))
          = members.map fun m => m.weight * 100 := by
        refine List.map_congr_left fun m hm => ?_
        rcases lt_or_eq_of_le (hw m hm) with hpos | hzero
        · rw [hup m hm hpos]
          simp [optScore, specStatusScore]
        · rw [← hzero]
          ring
      rw [hSdef, hmap, sum_map_mul_hundred, ← hWdef]
  · intro hdown
    have hS0 : S = 0 := by
      rw [hSdef]
      refine List.sum_eq_zero fun x hx => ?_
      rcases List.mem_map.mp hx with ⟨m, hm, rfl⟩
      rw [hdown m hm]
      simp [optScore, specStatusScore]
    rw [hscore, hS0, zero_div]

/-- Witness for `health_score_extremes`: a single critical member of
weight 1 that is up gives score 100. -/
theorem health_score_extremes_witness :
    ((∀ m ∈ ([⟨"a", 1, true⟩] : List MonitorGroupMember), 0 ≤ m.weight)
      ∧ 0 < (([⟨"a", 1, true⟩] : List MonitorGroupMember).map fun m => m.weight).sum)
    ∧ ((0 ≤ CalculateHealthScore [⟨"a", 1, true⟩] (fun id => some ((fun _ => CheckStatus.up) id))
        ∧ CalculateHealthScore [⟨"a", 1, true⟩] (fun id => some ((fun _ => CheckStatus.up) id)) ≤ 100)
      ∧ (CalculateHealthScore [⟨"a", 1, true⟩] (fun id => some ((fun _ => CheckStatus.up) id)) = 100
          ↔ ∀ m ∈ ([⟨"a", 1, true⟩] : List MonitorGroupMember),
              0 < m.weight → (fun _ => CheckStatus.up) m.monitorID = CheckStatus.up)
      ∧ ((∀ m ∈ ([⟨"a", 1, true⟩] : List MonitorGroupMember),
            (fun _ => CheckStatus.up) m.monitorID = CheckStatus.down)
          → CalculateHealthScore [⟨"a", 1, true⟩] (fun id => some ((fun _ => CheckStatus.up) id)) = 0)) :=
  ⟨⟨by intro m hm; simp [List.mem_singleton] at hm; simp [hm], by norm_num⟩,
   health_score_extremes [⟨"a", 1, true⟩] (fun _ => CheckStatus.up)
     (by intro m hm; simp [List.mem_singleton] at hm; simp [hm]) (by norm_num)⟩

theorem durMinutes_of_nonneg {d : Int} (h : 0 ≤ d) :
    durMinutes d = ((d.toNat / 60 : Nat) : Int) := by
  unfold durMinutes
  rw [if_pos h]

/-- Claim C2: a down or degraded result with no open incident opens one
with `started_at = result.checked_at`, severity critical for down and
warning for degraded, and `affected_checks = 1`; a down or degraded result
with an open incident increments `affected_checks` and sets
`downtime_minutes = floor((now - started_at) / 60)`; an up result with no
open incident performs no write. -/
theorem incident_open_update (r rup : CheckResult) (i : Incident) (now : Int)
    (hbad : r.status = CheckStatus.down ∨ r.status = CheckStatus.degraded)
    (hts : i.startedAt ≤ now)
    (hup : rup.status = CheckStatus.up) :
    CreateOrUpdateIncident none r now
      = IncidentAction.createIncident
          { startedAt := r.checkedAt
            resolvedAt := none
            severity := if r.status = CheckStatus.down then "critical" else "warning"
            downtimeMinutes := 0
            affectedChecks := 1
            notificationsSent := 0
            acknowledgedAt := none
            acknowledgedBy := none }
    ∧ CreateOrUpdateIncident (some i) r now
      = IncidentAction.updateIncident
          { i with affectedChecks := i.affectedChecks + 1
                   downtimeMinutes := (((now - i.startedAt).toNat / 60 : Nat) : Int) }
    ∧ CreateOrUpdateIncident none rup now = IncidentAction.noAction := by
  have hdm : durMinutes (now - i.startedAt) = (((now - i.startedAt).toNat / 60 : Nat) : Int) :=
    durMinutes_of_nonneg (by omega)
  refine ⟨?_, ?_, ?_⟩
  · rcases hbad with h | h <;> simp [CreateOrUpdateIncident, determineSeverity, h]
  · rcases hbad with h | h <;> simp [CreateOrUpdateIncident, h, hdm]
  · simp [CreateOrUpdateIncident, hup]

/-- Witness for `incident_open_update` at a concrete down result, a
concrete open incident, and a concrete up result. -/
theorem incident_open_update_witness :
    ((⟨CheckStatus.down, 5, "boom", 100⟩ : CheckResult).status = CheckStatus.down
        ∨ (⟨CheckStatus.down, 5, "boom", 100⟩ : CheckResult).status = CheckStatus.degraded)
    ∧ (⟨40, none, "critical", 0, 1, 0, none, none⟩ : Incident).startedAt ≤ 200
    ∧ (⟨CheckStatus.up, 5, "", 200⟩ : CheckResult).status = CheckStatus.up
    ∧ (CreateOrUpdateIncident none ⟨CheckStatus.down, 5, "boom", 100⟩ 200
        = IncidentAction.createIncident
            { startedAt := (⟨CheckStatus.down, 5, "boom", 100⟩ : CheckResult).checkedAt
              resolvedAt := none
              severity := if (⟨CheckStatus.down, 5, "boom", 100⟩ : CheckResult).status = CheckStatus.down
                          then "critical" else "warning"
              downtimeMinutes := 0
              affectedChecks := 1
              notificationsSent := 0
              acknowledgedAt := none
              acknowledgedBy := none }
      ∧ CreateOrUpdateIncident (some ⟨40, none, "critical", 0, 1, 0, none, none⟩)
            ⟨CheckStatus.down, 5, "boom", 100⟩ 200
        = IncidentAction.updateIncident
            { (⟨40, none, "critical", 0, 1, 0, none, none⟩ : Incident) with
                affectedChecks := (⟨40, none, "critical", 0, 1, 0, none, none⟩ : Incident).affectedChecks + 1
                downtimeMinutes :=
                  (((200 - (⟨40, none, "critical", 0, 1, 0, none, none⟩ : Incident).startedAt).toNat / 60 : Nat) : Int) }
      ∧ CreateOrUpdateIncident none ⟨CheckStatus.up, 5, "", 200⟩ 200 = IncidentAction.noAction) :=
  ⟨Or.inl rfl, by decide, rfl,
   incident_open_update ⟨CheckStatus.down, 5, "boom", 100⟩ ⟨CheckStatus.up, 5, "", 200⟩
     ⟨40, none, "critical", 0, 1, 0, none, none⟩ 200 (Or.inl rfl) (by decide) rfl⟩

/-- Claim C3: an up result arriving with an open incident resolves it,
setting `resolved_at` to the current time; the resolved incident satisfies
`resolved_at ≥ started_at` and
`downtime_minutes = floor((resolved_at - started_at) / 60)`. -/
theorem incident_resolution (i : Incident) (r : CheckResult) (now : Int)
    (hup : r.status = CheckStatus.up)
    (hts : i.startedAt ≤ now) :
    ∃ j, CreateOrUpdateIncident (some i) r now = IncidentAction.resolveIncident j
      ∧ j.startedAt = i.startedAt
      ∧ j.resolvedAt = some now
      ∧ j.startedAt ≤ now
      ∧ j.downtimeMinutes = (((now - j.startedAt).toNat / 60 : Nat) : Int) := by
  refine ⟨{ i with resolvedAt := some now
                   downtimeMinutes := durMinutes (now - i.startedAt) },
    ?_, rfl, rfl, hts, ?_⟩
  · simp [CreateOrUpdateIncident, hup]
  · exact durMinutes_of_nonneg (by omega)

/-- Witness for `incident_resolution` at a concrete up result and open
incident. -/
theorem incident_resolution_witness :
    (⟨CheckStatus.up, 5, "", 200⟩ : CheckResult).status = CheckStatus.up
    ∧ (⟨40, none, "critical", 0, 2, 0, none, none⟩ : Incident).startedAt ≤ 200
    ∧ ∃ j, CreateOrUpdateIncident (some ⟨40, none, "critical", 0, 2, 0, none, none⟩)
          ⟨CheckStatus.up, 5, "", 200⟩ 200 = IncidentAction.resolveIncident j
      ∧ j.startedAt = (⟨40, none, "critical", 0, 2, 0, none, none⟩ : Incident).startedAt
      ∧ j.resolvedAt = some 200
      ∧ j.startedAt ≤ 200
      ∧ j.downtimeMinutes = (((200 - j.startedAt).toNat / 60 : Nat) : Int) :=
  ⟨rfl, by decide,
   incident_resolution ⟨40, none, "critical", 0, 2, 0, none, none⟩
     ⟨CheckStatus.up, 5, "", 200⟩ 200 rfl (by decide)⟩

/-- Claim C8: acknowledging an unacknowledged incident sets
`acknowledged_at` and `acknowledged_by` and changes nothing else; every
subsequent acknowledge call on the resulting incident returns an error
before performing any write, so the acknowledged state is unchanged. -/
theorem acknowledge_first_call_only (i : Incident) (now now₂ : Int)
    (u u₂ : String) (h : i.acknowledgedAt = none) :
    ∃ j, AcknowledgeIncident i now u = Except.ok j
      ∧ j.acknowledgedAt = some now
      ∧ j.acknowledgedBy = some u
      ∧ j.startedAt = i.startedAt
      ∧ j.resolvedAt = i.resolvedAt
      ∧ j.severity = i.severity
      ∧ j.downtimeMinutes = i.downtimeMinutes
      ∧ j.affectedChecks = i.affectedChecks
      ∧ AcknowledgeIncident j now₂ u₂ = Except.error "incident already acknowledged" := by
  refine ⟨{ i with acknowledgedAt := some now, acknowledgedBy := some u },
    ?_, rfl, rfl, rfl, rfl, rfl, rfl, rfl, ?_⟩
  · simp [AcknowledgeIncident, h]
  · simp [AcknowledgeIncident]

/-- Witness for `acknowledge_first_call_only` on a concrete incident. -/
theorem acknowledge_first_call_only_witness :
    (⟨0, none, "critical", 0, 1, 0, none, none⟩ : Incident).acknowledgedAt = none
    ∧ ∃ j, AcknowledgeIncident ⟨0, none, "critical", 0, 1, 0, none, none⟩ 10 "ops@example.com"
          = Except.ok j
      ∧ j.acknowledgedAt = some 10
      ∧ j.acknowledgedBy = some "ops@example.com"
      ∧ j.startedAt = (⟨0, none, "critical", 0, 1, 0, none, none⟩ : Incident).startedAt
      ∧ j.resolvedAt = (⟨0, none, "critical", 0, 1, 0, none, none⟩ : Incident).resolvedAt
      ∧ j.severity = (⟨0, none, "critical", 0, 1, 0, none, none⟩ : Incident).severity
      ∧ j.downtimeMinutes = (⟨0, none, "critical", 0, 1, 0, none, none⟩ : Incident).downtimeMinutes
      ∧ j.affectedChecks = (⟨0, none, "critical", 0, 1, 0, none, none⟩ : Incident).affectedChecks
      ∧ AcknowledgeIncident j 20 "dev@example.com" = Except.error "incident already acknowledged" :=
  ⟨rfl,
   acknowledge_first_call_only ⟨0, none, "critical", 0, 1, 0, none, none⟩ 10 20
     "ops@example.com" "dev@example.com" rfl⟩

/-- First save of the C6 counterexample: the result with the later
`checked_at` (6000) is saved first. -/
def c6First : CheckResult := ⟨CheckStatus.up, 10, "", 6000⟩

/-- Second save of the C6 counterexample: an out-of-order result with the
earlier `checked_at` (0) is saved afterwards. -/
def c6Second : CheckResult := ⟨CheckStatus.down, 20, "x", 0⟩

/-- Counterexample to claim C6 as stated: after saving a result stamped
6000 and then an out-of-order result stamped 0, the cached `last_check` is
0 — the save order won, not the later `checked_at`, so `last_check` is not
the maximum `checked_at` ever written. -/
theorem last_check_counterexample :
    ((runSaves [c6First, c6Second]).map fun row => row.lastCheck) = some 0
    ∧ max c6First.checkedAt c6Second.checkedAt = 6000
    ∧ (0 : Int) ≠ 6000 := by decide

/-- Claim C6 (amended): the `monitor_last_status` upsert is unconditional,
so after any sequence of saves the cached row reflects the most recently
saved result — the last write wins, regardless of `checked_at` order. -/
theorem last_status_save_order (results : List CheckResult) (r : CheckResult) :
    ((runSaves (results ++ [r])).map fun row => row.lastCheck) = some r.checkedAt := by
  unfold runSaves
  rw [List.foldl_append]
  simp [SaveCheckResult]

/-- Spec wording C5: minutes contributed by a list of closed streaks, each
a pair (t0 opening time, t1 closing time) contributing `⌊t1 - t0⌋` minutes. -/
def pairMinutes (streaks : List (Int × Int)) : Int :=
  (streaks.map fun p => durMinutes (p.2 - p.1)).sum

/-- Spec wording C5: decompose an ordered check list into its maximal
down-streaks — a streak opens at the time of the first non-up result,
closes at the time of the next up result, and the second component is the
opening time of a streak still open at the end of the list. -/
def streakScan (checks : List CheckResult) (openStart : Option Int) :
    List (Int × Int) × Option Int :=
  match checks, openStart with
  | [], op => ([], op)
  | c :: cs, none =>
    if c.status = CheckStatus.up then streakScan cs none
    else streakScan cs (some c.checkedAt)
  | c :: cs, some t0 =>
    if c.status = CheckStatus.up then
      let r := streakScan cs none
      ((t0, c.checkedAt) :: r.1, r.2)
    else streakScan cs (some t0)

/-- Claim C5's stated downtime: closed streaks plus an open streak charged
from its own opening time t0. -/
def downtimeSpecClaim (checks : List CheckResult) (now : Int) : Int :=
  let r := streakScan checks none
  pairMinutes r.1 +
    (match r.2 with
     | some t0 => durMinutes (now - t0)
     | none => 0)

/-- Amended C5 downtime: closed streaks plus an open streak charged from
the time of the last check in the window. -/
def downtimeSpecAmended (checks : List CheckResult) (now : Int) : Int :=
  let r := streakScan checks none
  pairMinutes r.1 +
    (match r.2, checks.getLast? with
     | some _, some lastCheck => durMinutes (now - lastCheck.checkedAt)
     | _, _ => 0)

theorem downtimeLoop_eq_streakScan (checks : List CheckResult) :
    ∀ (op : Option Int) (acc : Int),
      downtimeLoop checks op acc
        = (acc + pairMinutes (streakScan checks op).1, (streakScan checks op).2) := by
  induction checks with
  | nil =>
    intro op acc
    simp [downtimeLoop, streakScan, pairMinutes]
  | cons c cs ih =>
    intro op acc
    cases op with
    | none =>
      by_cases h : c.status = CheckStatus.up
      · simp [downtimeLoop, streakScan, h, ih]
      · simp [downtimeLoop, streakScan, h, ih]
    | some t0 =>
      by_cases h : c.status = CheckStatus.up
      · simp only [downtimeLoop, streakScan, h, if_true, if_pos, ih, pairMinutes,
          List.map_cons, List.sum_cons]
        rw [add_assoc]
      · simp [downtimeLoop, streakScan, h, ih]

/-- The down-down trace of the C5 counterexample: two down checks at 0 s
and 3600 s, no recovery in the window. -/
def c5Checks : List CheckResult :=
  [⟨CheckStatus.down, 10, "e", 0⟩, ⟨CheckStatus.down, 10, "e", 3600⟩]

/-- Counterexample to claim C5 as stated: on a streak opened at t0 = 0 that
is still open at period end (last check at 3600, now = 7200) the code adds
`⌊now - 3600⌋ = 60` minutes, while the claim's `⌊now - t0⌋` is 120. -/
theorem downtime_open_streak_counterexample :
    calculateDowntimeMinutes c5Checks 60 7200 = 60
    ∧ downtimeSpecClaim c5Checks 7200 = 120
    ∧ (60 : Int) ≠ 120 := by decide

/-- Claim C5 (amended): for every list of checks, the computed
downtime_minutes is the sum over maximal down-streaks of `⌊t1 - t0⌋`
minutes for closed streaks, while a streak still open at the end of the
period contributes `⌊now - t_last⌋` minutes measured from the last check
of the window (not from the streak's opening time). -/
theorem downtime_streak_sum (checks : List CheckResult)
    (intervalSeconds now : Int) :
    calculateDowntimeMinutes checks intervalSeconds now
      = downtimeSpecAmended checks now := by
  unfold calculateDowntimeMinutes downtimeSpecAmended
  cases checks with
  | nil => simp [streakScan, pairMinutes]
  | cons c cs =>
    simp only [List.isEmpty_cons, Bool.false_eq_true, if_false,
      downtimeLoop_eq_streakScan, zero_add]
    cases hop : (streakScan (c :: cs) none).2 with
    | none =>
      cases hlast : (c :: cs).getLast? <;> simp
    | some t0 =>
      cases hlast : (c :: cs).getLast? with
      | none => simp
      | some lastCheck => simp [Int.add_comm]

/-- Spec wording C4: the average response time over successful (up) checks
only. -/
def avgResponseOverSuccessful (checks : List CheckResult) : Nat :=
  let succ := checks.filter fun c => decide (c.status = CheckStatus.up)
  (succ.map fun c => c.responseTimeMs).sum / succ.length

/-- The two-check window of the C4 counterexample: one up check at 100 ms
and one down check at 300 ms. -/
def c4Checks : List CheckResult :=
  [⟨CheckStatus.up, 100, "", 0⟩, ⟨CheckStatus.down, 300, "e", 60⟩]

/-- Counterexample to claim C4 as stated: the report's average response
time is (100+300)/2 = 200 ms, computed over all checks, whereas the average
over successful checks only is 100 ms. -/
theorem sla_average_counterexample :
    ((CalculateSLA c4Checks none 60 120).map fun rep => rep.averageResponseTimeMs) = some 200
    ∧ avgResponseOverSuccessful c4Checks = 100
    ∧ (200 : Nat) ≠ 100 := by decide

/-- Claim C4 (amended): for a window with at least one check the SLA report
has `uptime_percentage = successful/total · 100`, `slo_met` true iff the
uptime percentage reaches the configured target (and true when no SLO is
configured), and an average response time computed over all checks of the
window (not over successful checks only). -/
theorem sla_report_fields (checks : List CheckResult) (sloTarget : Option ℚ)
    (intervalSeconds now : Int) (hne : checks ≠ []) :
    ∃ rep, CalculateSLA checks sloTarget intervalSeconds now = some rep
      ∧ rep.totalChecks = checks.length
      ∧ rep.successfulChecks
          = (checks.filter fun c => decide (c.status = CheckStatus.up)).length
      ∧ rep.uptimePercentage
          = ((checks.filter fun c => decide (c.status = CheckStatus.up)).length : ℚ)
            / (checks.length : ℚ) * 100
      ∧ (sloTarget = none → rep.sloMet = true)
      ∧ (∀ t, sloTarget = some t → (rep.sloMet = true ↔ rep.uptimePercentage ≥ t))
      ∧ rep.averageResponseTimeMs
          = (checks.map fun c => c.responseTimeMs).sum / checks.length := by
  have hemp : checks.isEmpty = false := by
    cases checks with
    | nil => exact absurd rfl hne
    | cons _ _ => rfl
  have hcount : (checks.countP fun c => decide (c.status = CheckStatus.up))
      = (checks.filter fun c => decide (c.status = CheckStatus.up)).length :=
    checks.countP_eq_length_filter _
  refine ⟨{ totalChecks := checks.length
            successfulChecks := checks.countP fun c => decide (c.status = CheckStatus.up)
            failedChecks := checks.countP fun c => decide (c.status ≠ CheckStatus.up)
            uptimePercentage :=
              (((checks.countP fun c => decide (c.status = CheckStatus.up)) : ℚ)
                / (checks.length : ℚ)) * 100
            downtimeMinutes := calculateDowntimeMinutes checks intervalSeconds now
            averageResponseTimeMs := (checks.map fun c => c.responseTimeMs).sum / checks.length
            sloMet :=
              match sloTarget with
              | none => true
              | some target =>
                decide ((((checks.countP fun c => decide (c.status = CheckStatus.up)) : ℚ)
                  / (checks.length : ℚ)) * 100 ≥ target) },
    ?_, rfl, hcount, ?_, ?_, ?_, rfl⟩
  · unfold CalculateSLA
    rw [hemp]
    rfl
  · simp only [hcount]
  · intro hnone
    subst hnone
    rfl
  · intro t hsome
    subst hsome
    show (decide _ = true) ↔ _
    simp only [decide_eq_true_eq]

/-- Witness for `sla_report_fields`: a single up check against a 50 % SLO
target. -/
theorem sla_report_fields_witness :
    ([⟨CheckStatus.up, 100, "", 0⟩] : List CheckResult) ≠ []
    ∧ ∃ rep, CalculateSLA [⟨CheckStatus.up, 100, "", 0⟩] (some 50) 60 120 = some rep
      ∧ rep.totalChecks = ([⟨CheckStatus.up, 100, "", 0⟩] : List CheckResult).length
      ∧ rep.successfulChecks
          = (([⟨CheckStatus.up, 100, "", 0⟩] : List CheckResult).filter fun c =>
              decide (c.status = CheckStatus.up)).length
      ∧ rep.uptimePercentage
          = ((([⟨CheckStatus.up, 100, "", 0⟩] : List CheckResult).filter fun c =>
              decide (c.status = CheckStatus.up)).length : ℚ)
            / (([⟨CheckStatus.up, 100, "", 0⟩] : List CheckResult).length : ℚ) * 100
      ∧ ((some 50 : Option ℚ) = none → rep.sloMet = true)
      ∧ (∀ t, (some 50 : Option ℚ) = some t → (rep.sloMet = true ↔ rep.uptimePercentage ≥ t))
      ∧ rep.averageResponseTimeMs
          = (([⟨CheckStatus.up, 100, "", 0⟩] : List CheckResult).map fun c =>
              c.responseTimeMs).sum / ([⟨CheckStatus.up, 100, "", 0⟩] : List CheckResult).length :=
  ⟨by decide,
   sla_report_fields [⟨CheckStatus.up, 100, "", 0⟩] (some 50) 60 120 (by decide)⟩

end UptimeGuardian
